import Mathlib

/-!
Shallow embedding of the django-mptt-sandow excerpt:
`src/mptt2/fields.py` (three tree-aware relationship-field adapters and the
optional South registration shim) and `src/setup.py` (version-string
derivation).  Python keyword-argument dictionaries are embedded as
association lists with first-match lookup; `dict.setdefault` appends the
key at the end when it is absent, exactly as Python's insertion-ordered
dictionaries do.  `super().formfield(**kwargs)` is an external call into
Django, so each adapter's `formfield` is parameterised over that base
implementation; fallible Python calls return `Except PyError`.
-/

namespace Mptt2

/-- The form-field classes the excerpt mentions: the two tree-aware classes
imported from `mptt2.forms` (src/mptt2/fields.py line 8) plus arbitrary
other classes a caller could pass under `form_class`. -/
inductive FormFieldClass where
  | TreeNodeChoiceField
  | TreeNodeMultipleChoiceField
  | other (nm : String)
  deriving DecidableEq, Repr

/-- A Python value appearing in a keyword-configuration mapping: a class,
a string, an integer, or Python's None. -/
inductive Val where
  | cls (c : FormFieldClass)
  | str (s : String)
  | int (n : Int)
  | pyNone
  deriving DecidableEq, Repr

/-- A `**kwargs` mapping: an insertion-ordered association list. -/
abbrev Kwargs := List (String × Val)

/-- First-match lookup, the reading semantics of a Python dict whose keys
are unique. -/
def Kwargs.lookup : Kwargs → String → Option Val
  | [], _ => Option.none
  | (k, v) :: rest, key => if k = key then some v else Kwargs.lookup rest key

/-- The keys of the mapping, in insertion order. -/
def Kwargs.keys (kw : Kwargs) : List String := kw.map Prod.fst

/-- Python's `dict.setdefault(key, v)`: when `key` is absent, insert it at
the end bound to `v`; when present, leave the dict unchanged. -/
def Kwargs.setdefault (kw : Kwargs) (key : String) (v : Val) : Kwargs :=
  match Kwargs.lookup kw key with
  | some _ => kw
  | Option.none => kw ++ [(key, v)]

/-- The Python errors this excerpt can meet: the `ImportError` of the South
shim and whatever Django's base `formfield` may raise. -/
inductive PyError where
  | importError
  | typeError (msg : String)
  | otherError (msg : String)
  deriving DecidableEq, Repr

/-- A constructed form field: its class and the configuration it was built
from. -/
structure FormField where
  cls : FormFieldClass
  config : Kwargs
  deriving DecidableEq, Repr

/-- The type of Django's base `formfield` implementation, an external
collaborator: it takes the keyword configuration and either returns a form
field or raises. -/
abbrev BaseFormfield := Kwargs → Except PyError FormField

namespace TreeForeignKey

/-- From src/mptt2/fields.py lines 20-25: `TreeForeignKey.formfield` sets
`form_class` to `TreeNodeChoiceField` when absent and delegates to the
base implementation (`super().formfield(**kwargs)`). -/
def formfield (base : BaseFormfield) (kwargs : Kwargs) : Except PyError FormField :=
  base (Kwargs.setdefault kwargs "form_class" (Val.cls FormFieldClass.TreeNodeChoiceField))

end TreeForeignKey

namespace TreeOneToOneField

/-- From src/mptt2/fields.py lines 29-31: `TreeOneToOneField.formfield` sets
`form_class` to `TreeNodeChoiceField` when absent and delegates to the
base implementation. -/
def formfield (base : BaseFormfield) (kwargs : Kwargs) : Except PyError FormField :=
  base (Kwargs.setdefault kwargs "form_class" (Val.cls FormFieldClass.TreeNodeChoiceField))

end TreeOneToOneField

namespace TreeManyToManyField

/-- From src/mptt2/fields.py lines 35-37: `TreeManyToManyField.formfield` sets
`form_class` to `TreeNodeMultipleChoiceField` when absent and delegates to
the base implementation. -/
def formfield (base : BaseFormfield) (kwargs : Kwargs) : Except PyError FormField :=
  base (Kwargs.setdefault kwargs "form_class" (Val.cls FormFieldClass.TreeNodeMultipleChoiceField))

end TreeManyToManyField

/-- Modelled from the spec: Django's base relationship-field `formfield`
construction is not part of this repository.  Per spec sections 4.1 and 6
it accepts the configuration mapping and returns the concrete form-field
instance, whose class is the one the configuration specifies under
`form_class`; with no `form_class` entry it falls back to its own default
class.  A non-class value under `form_class` is not callable and raises. -/
def djangoBaseFormfield (kwargs : Kwargs) : Except PyError FormField :=
  match Kwargs.lookup kwargs "form_class" with
  | some (Val.cls c) => Except.ok { cls := c, config := kwargs }
  | some _ => Except.error (PyError.typeError "form_class value is not callable")
  | Option.none => Except.ok { cls := FormFieldClass.other "django default", config := kwargs }

/-- An observing base implementation used only to state what configuration
an adapter forwards to its base: it records the received configuration in
the returned field and never raises. -/
def captureBase : BaseFormfield :=
  fun kw => Except.ok { cls := FormFieldClass.other "capture", config := kw }

/-- The configuration transformation shared by the three adapters, as the
spec describes it: default `form_class` to the injected tree-aware class. -/
def augmentWith (c : FormFieldClass) (kwargs : Kwargs) : Kwargs :=
  Kwargs.setdefault kwargs "form_class" (Val.cls c)

/-- One South `add_introspection_rules(rules, patterns)` call. -/
structure IntrospectionRule where
  rules : List String
  patterns : List String
  deriving DecidableEq, Repr

/-- From src/mptt2/fields.py lines 42-44: the three registration calls made
when South imports successfully. -/
def southRegistrationRules : List IntrospectionRule :=
  [ { rules := [], patterns := ["^mptt2\\.fields\\.TreeForeignKey"] },
    { rules := [], patterns := ["^mptt2\\.fields\\.TreeOneToOneField"] },
    { rules := [], patterns := ["^mptt2\\.fields\\.TreeManyToManyField"] } ]

/-- The guarded `from south.modelsinspector import ...` of line 41: it
succeeds when South is installed and raises `ImportError` otherwise. -/
def southImport (southInstalled : Bool) : Except PyError Unit :=
  if southInstalled then Except.ok () else Except.error PyError.importError

/-- From src/mptt2/fields.py lines 40-46: the module-import-time South shim.
The guarded import is tried; on success the three rules are registered,
and an `ImportError` is swallowed by `except ImportError: pass`, leaving
nothing registered.  The result lists the registrations performed. -/
def moduleSouthShim (southInstalled : Bool) : Except PyError (List IntrospectionRule) :=
  match southImport southInstalled with
  | Except.ok _ => Except.ok southRegistrationRules
  | Except.error PyError.importError => Except.ok []
  | Except.error e => Except.error e

/-- From src/setup.py line 6: `version = ".".join([str(v) for v in version_tuple])`,
with the version tuple (read from `mptt2.VERSION`, whose file is not in the
excerpt) taken as the parameter. -/
def version (version_tuple : List Int) : String :=
  String.intercalate "." (version_tuple.map toString)

/-- The spec's words for the version derivation, written recursively: the
dotted decimal string of the tuple's elements in order. -/
def dottedDecimalSpec : List Int → String
  | [] => ""
  | [v] => toString v
  | v :: w :: rest => toString v ++ "." ++ dottedDecimalSpec (w :: rest)

/-! Helper lemmas about the `Kwargs` operations and `String.intercalate`. -/

theorem Kwargs.lookup_append_single (kw : Kwargs) (k : String) (v : Val)
    (h : Kwargs.lookup kw k = Option.none) :
    Kwargs.lookup (kw ++ [(k, v)]) k = some v := by
  induction kw with
  | nil => simp [Kwargs.lookup]
  | cons p rest ih =>
      obtain ⟨k0, v0⟩ := p
      by_cases hk : k0 = k
      · simp [Kwargs.lookup, hk] at h
      · simp only [Kwargs.lookup, hk, if_false] at h ⊢
        exact ih h

theorem Kwargs.lookup_append_ne (kw : Kwargs) (k key : String) (v : Val)
    (h : key ≠ k) :
    Kwargs.lookup (kw ++ [(k, v)]) key = Kwargs.lookup kw key := by
  induction kw with
  | nil =>
      have hk : ¬k = key := fun hh => h hh.symm
      simp [Kwargs.lookup, hk]
  | cons p rest ih =>
      obtain ⟨k0, v0⟩ := p
      by_cases hk : k0 = key
      · simp [Kwargs.lookup, hk]
      · simp only [List.cons_append, Kwargs.lookup, hk, if_false]
        exact ih

theorem Kwargs.mem_keys_iff (kw : Kwargs) (key : String) :
    key ∈ Kwargs.keys kw ↔ (Kwargs.lookup kw key).isSome = true := by
  induction kw with
  | nil => simp [Kwargs.keys, Kwargs.lookup]
  | cons p rest ih =>
      obtain ⟨k0, v0⟩ := p
      by_cases hk : k0 = key
      · simp [Kwargs.keys, Kwargs.lookup, hk]
      · simp only [Kwargs.keys, List.map_cons, List.mem_cons, Kwargs.lookup, hk, if_false]
        rw [← Kwargs.keys]
        simp only [ih]
        constructor
        · rintro (h | h)
          · exact absurd h.symm hk
          · exact h
        · exact fun h => Or.inr h

theorem Kwargs.setdefault_of_some (kw : Kwargs) (k : String) (v w : Val)
    (h : Kwargs.lookup kw k = some w) :
    Kwargs.setdefault kw k v = kw := by
  unfold Kwargs.setdefault
  rw [h]

theorem Kwargs.setdefault_of_none (kw : Kwargs) (k : String) (v : Val)
    (h : Kwargs.lookup kw k = Option.none) :
    Kwargs.setdefault kw k v = kw ++ [(k, v)] := by
  unfold Kwargs.setdefault
  rw [h]

theorem Kwargs.lookup_setdefault_self (kw : Kwargs) (k : String) (v : Val) :
    (Kwargs.lookup (Kwargs.setdefault kw k v) k).isSome = true := by
  cases h : Kwargs.lookup kw k with
  | none =>
      rw [Kwargs.setdefault_of_none kw k v h, Kwargs.lookup_append_single kw k v h]
      rfl
  | some w =>
      rw [Kwargs.setdefault_of_some kw k v w h, h]
      rfl

theorem Kwargs.lookup_setdefault_ne (kw : Kwargs) (k key : String) (v : Val)
    (h : key ≠ k) :
    Kwargs.lookup (Kwargs.setdefault kw k v) key = Kwargs.lookup kw key := by
  cases hl : Kwargs.lookup kw k with
  | none => rw [Kwargs.setdefault_of_none kw k v hl, Kwargs.lookup_append_ne kw k key v h]
  | some w => rw [Kwargs.setdefault_of_some kw k v w hl]

theorem Kwargs.setdefault_idem (kw : Kwargs) (k : String) (v : Val) :
    Kwargs.setdefault (Kwargs.setdefault kw k v) k v = Kwargs.setdefault kw k v := by
  cases h : Kwargs.lookup kw k with
  | none =>
      have h1 := Kwargs.setdefault_of_none kw k v h
      have h2 := Kwargs.lookup_append_single kw k v h
      rw [h1]
      exact Kwargs.setdefault_of_some _ k v v h2
  | some w =>
      have h1 := Kwargs.setdefault_of_some kw k v w h
      rw [h1]
      exact Kwargs.setdefault_of_some kw k v w h

theorem Kwargs.mem_keys_setdefault (kw : Kwargs) (k key : String) (v : Val) :
    key ∈ Kwargs.keys (Kwargs.setdefault kw k v) ↔ key ∈ Kwargs.keys kw ∨ key = k := by
  cases h : Kwargs.lookup kw k with
  | none =>
      rw [Kwargs.setdefault_of_none kw k v h]
      simp [Kwargs.keys]
  | some w =>
      rw [Kwargs.setdefault_of_some kw k v w h]
      constructor
      · exact fun hm => Or.inl hm
      · rintro (hm | rfl)
        · exact hm
        · rw [Kwargs.mem_keys_iff, h]
          rfl

/-- Evaluating the spec-modelled Django base on the configuration an adapter
forwards, when the caller supplied no explicit form-field class. -/
theorem djangoBaseFormfield_setdefault (c : FormFieldClass) (kwargs : Kwargs)
    (h : Kwargs.lookup kwargs "form_class" = Option.none) :
    djangoBaseFormfield (Kwargs.setdefault kwargs "form_class" (Val.cls c)) =
      Except.ok { cls := c, config := kwargs ++ [("form_class", Val.cls c)] } := by
  rw [Kwargs.setdefault_of_none kwargs "form_class" (Val.cls c) h]
  unfold djangoBaseFormfield
  rw [Kwargs.lookup_append_single kwargs "form_class" (Val.cls c) h]

theorem intercalate_go_acc (s : String) (l : List String) :
    ∀ acc b, String.intercalate.go acc s (b :: l) = acc ++ s ++ String.intercalate.go b s l := by
  induction l with
  | nil => intro acc b; simp [String.intercalate.go]
  | cons c l ih =>
      intro acc b
      show String.intercalate.go (acc ++ s ++ b) s (c :: l) =
        acc ++ s ++ String.intercalate.go b s (c :: l)
      rw [ih (acc ++ s ++ b) c, ih b c]
      simp [String.append_assoc]

theorem intercalate_cons_cons (s a b : String) (l : List String) :
    String.intercalate s (a :: b :: l) = a ++ s ++ String.intercalate s (b :: l) := by
  show String.intercalate.go a s (b :: l) = a ++ s ++ String.intercalate.go b s l
  exact intercalate_go_acc s l a b

/-! The claims. -/

/-- C1: for each of the three adapter classes, if the caller's keyword
configuration has no `form_class` entry, the adapter inserts its designated
tree-aware choice-field class under `form_class`, and the form field the
(spec-modelled) base construction produces has exactly that class. -/
theorem c1_default_form_class_inserted (kwargs : Kwargs)
    (h : Kwargs.lookup kwargs "form_class" = Option.none) :
    (∃ f, TreeForeignKey.formfield djangoBaseFormfield kwargs = Except.ok f ∧
        f.cls = FormFieldClass.TreeNodeChoiceField ∧
        Kwargs.lookup f.config "form_class" = some (Val.cls FormFieldClass.TreeNodeChoiceField)) ∧
    (∃ f, TreeOneToOneField.formfield djangoBaseFormfield kwargs = Except.ok f ∧
        f.cls = FormFieldClass.TreeNodeChoiceField ∧
        Kwargs.lookup f.config "form_class" = some (Val.cls FormFieldClass.TreeNodeChoiceField)) ∧
    (∃ f, TreeManyToManyField.formfield djangoBaseFormfield kwargs = Except.ok f ∧
        f.cls = FormFieldClass.TreeNodeMultipleChoiceField ∧
        Kwargs.lookup f.config "form_class" =
          some (Val.cls FormFieldClass.TreeNodeMultipleChoiceField)) := by
  exact ⟨⟨_, djangoBaseFormfield_setdefault FormFieldClass.TreeNodeChoiceField kwargs h, rfl,
      Kwargs.lookup_append_single kwargs "form_class" _ h⟩,
    ⟨_, djangoBaseFormfield_setdefault FormFieldClass.TreeNodeChoiceField kwargs h, rfl,
      Kwargs.lookup_append_single kwargs "form_class" _ h⟩,
    ⟨_, djangoBaseFormfield_setdefault FormFieldClass.TreeNodeMultipleChoiceField kwargs h, rfl,
      Kwargs.lookup_append_single kwargs "form_class" _ h⟩⟩

/-- Witness for C1 at the empty keyword configuration. -/
theorem c1_default_form_class_inserted_witness :
    Kwargs.lookup ([] : Kwargs) "form_class" = Option.none ∧
    ((∃ f, TreeForeignKey.formfield djangoBaseFormfield [] = Except.ok f ∧
        f.cls = FormFieldClass.TreeNodeChoiceField ∧
        Kwargs.lookup f.config "form_class" = some (Val.cls FormFieldClass.TreeNodeChoiceField)) ∧
    (∃ f, TreeOneToOneField.formfield djangoBaseFormfield [] = Except.ok f ∧
        f.cls = FormFieldClass.TreeNodeChoiceField ∧
        Kwargs.lookup f.config "form_class" = some (Val.cls FormFieldClass.TreeNodeChoiceField)) ∧
    (∃ f, TreeManyToManyField.formfield djangoBaseFormfield [] = Except.ok f ∧
        f.cls = FormFieldClass.TreeNodeMultipleChoiceField ∧
        Kwargs.lookup f.config "form_class" =
          some (Val.cls FormFieldClass.TreeNodeMultipleChoiceField))) :=
  ⟨rfl, c1_default_form_class_inserted [] rfl⟩

/-- C2: when the caller's configuration already holds a `form_class` entry,
each adapter forwards the entire configuration - and with it that exact
value - to the base implementation unchanged, whatever the base is. -/
theorem c2_existing_form_class_preserved (kwargs : Kwargs) (v : Val)
    (h : Kwargs.lookup kwargs "form_class" = some v) (base : BaseFormfield) :
    TreeForeignKey.formfield base kwargs = base kwargs ∧
    TreeOneToOneField.formfield base kwargs = base kwargs ∧
    TreeManyToManyField.formfield base kwargs = base kwargs := by
  have hs : ∀ w : Val, Kwargs.setdefault kwargs "form_class" w = kwargs :=
    fun w => Kwargs.setdefault_of_some kwargs "form_class" w v h
  exact ⟨congrArg base (hs _), congrArg base (hs _), congrArg base (hs _)⟩

/-- Witness for C2 at a configuration carrying an explicit custom class. -/
theorem c2_existing_form_class_preserved_witness :
    Kwargs.lookup [("form_class", Val.cls (FormFieldClass.other "Custom"))] "form_class" =
      some (Val.cls (FormFieldClass.other "Custom")) ∧
    (TreeForeignKey.formfield djangoBaseFormfield
        [("form_class", Val.cls (FormFieldClass.other "Custom"))] =
      djangoBaseFormfield [("form_class", Val.cls (FormFieldClass.other "Custom"))] ∧
    TreeOneToOneField.formfield djangoBaseFormfield
        [("form_class", Val.cls (FormFieldClass.other "Custom"))] =
      djangoBaseFormfield [("form_class", Val.cls (FormFieldClass.other "Custom"))] ∧
    TreeManyToManyField.formfield djangoBaseFormfield
        [("form_class", Val.cls (FormFieldClass.other "Custom"))] =
      djangoBaseFormfield [("form_class", Val.cls (FormFieldClass.other "Custom"))]) :=
  ⟨rfl, c2_existing_form_class_preserved
    [("form_class", Val.cls (FormFieldClass.other "Custom"))]
    (Val.cls (FormFieldClass.other "Custom")) rfl djangoBaseFormfield⟩

/-- C3: with no explicit form-field class supplied, the two single-valued
adapters produce a form field of the single-choice tree-aware class and the
multi-valued adapter one of the multiple-choice tree-aware class. -/
theorem c3_single_vs_multiple_choice (kwargs : Kwargs)
    (h : Kwargs.lookup kwargs "form_class" = Option.none) :
    (∃ f, TreeForeignKey.formfield djangoBaseFormfield kwargs = Except.ok f ∧
        f.cls = FormFieldClass.TreeNodeChoiceField) ∧
    (∃ f, TreeOneToOneField.formfield djangoBaseFormfield kwargs = Except.ok f ∧
        f.cls = FormFieldClass.TreeNodeChoiceField) ∧
    (∃ f, TreeManyToManyField.formfield djangoBaseFormfield kwargs = Except.ok f ∧
        f.cls = FormFieldClass.TreeNodeMultipleChoiceField) := by
  exact ⟨⟨_, djangoBaseFormfield_setdefault FormFieldClass.TreeNodeChoiceField kwargs h, rfl⟩,
    ⟨_, djangoBaseFormfield_setdefault FormFieldClass.TreeNodeChoiceField kwargs h, rfl⟩,
    ⟨_, djangoBaseFormfield_setdefault FormFieldClass.TreeNodeMultipleChoiceField kwargs h, rfl⟩⟩

/-- Witness for C3 at a one-entry configuration without `form_class`. -/
theorem c3_single_vs_multiple_choice_witness :
    Kwargs.lookup [("required", Val.pyNone)] "form_class" = Option.none ∧
    ((∃ f, TreeForeignKey.formfield djangoBaseFormfield [("required", Val.pyNone)] = Except.ok f ∧
        f.cls = FormFieldClass.TreeNodeChoiceField) ∧
    (∃ f, TreeOneToOneField.formfield djangoBaseFormfield [("required", Val.pyNone)] = Except.ok f ∧
        f.cls = FormFieldClass.TreeNodeChoiceField) ∧
    (∃ f, TreeManyToManyField.formfield djangoBaseFormfield [("required", Val.pyNone)] = Except.ok f ∧
        f.cls = FormFieldClass.TreeNodeMultipleChoiceField)) :=
  ⟨by decide, c3_single_vs_multiple_choice [("required", Val.pyNone)] (by decide)⟩

/-- C4: importing the adapter module with South absent swallows the
`ImportError` and registers nothing; with South present it registers exactly
three introspection rules; in neither case does the import raise. -/
theorem c4_south_shim_never_raises :
    moduleSouthShim false = Except.ok [] ∧
    moduleSouthShim true = Except.ok southRegistrationRules ∧
    southRegistrationRules.length = 3 ∧
    ∀ b, ∃ rules, moduleSouthShim b = Except.ok rules := by
  refine ⟨rfl, rfl, rfl, ?_⟩
  intro b
  cases b
  · exact ⟨[], rfl⟩
  · exact ⟨southRegistrationRules, rfl⟩

/-- C5: the version derivation joins the tuple elements with a dot - it
agrees with the recursive dotted-decimal reading of the spec on every
integer tuple - and on the tuple [1, 2, 0] it yields exactly "1.2.0". -/
theorem c5_version_string_join :
    version [1, 2, 0] = "1.2.0" ∧ ∀ t : List Int, version t = dottedDecimalSpec t := by
  constructor
  · rfl
  · intro t
    induction t with
    | nil => rfl
    | cons v rest ih =>
        cases rest with
        | nil => rfl
        | cons w rest2 =>
            show String.intercalate "." (toString v :: toString w :: rest2.map toString) =
              toString v ++ "." ++ dottedDecimalSpec (w :: rest2)
            rw [intercalate_cons_cons, ← ih]
            rfl

/-- C6: every entry of the caller's configuration at a key other than
`form_class` reaches the base implementation with its key and value
unchanged, for each of the three adapters (observed through a base that
records the configuration it receives). -/
theorem c6_other_entries_unchanged (kwargs : Kwargs) (key : String)
    (h : key ≠ "form_class") :
    (∃ f, TreeForeignKey.formfield captureBase kwargs = Except.ok f ∧
        Kwargs.lookup f.config key = Kwargs.lookup kwargs key) ∧
    (∃ f, TreeOneToOneField.formfield captureBase kwargs = Except.ok f ∧
        Kwargs.lookup f.config key = Kwargs.lookup kwargs key) ∧
    (∃ f, TreeManyToManyField.formfield captureBase kwargs = Except.ok f ∧
        Kwargs.lookup f.config key = Kwargs.lookup kwargs key) := by
  refine ⟨⟨_, rfl, ?_⟩, ⟨_, rfl, ?_⟩, ⟨_, rfl, ?_⟩⟩
  · exact Kwargs.lookup_setdefault_ne kwargs "form_class" key _ h
  · exact Kwargs.lookup_setdefault_ne kwargs "form_class" key _ h
  · exact Kwargs.lookup_setdefault_ne kwargs "form_class" key _ h

/-- Witness for C6 at the key "required". -/
theorem c6_other_entries_unchanged_witness :
    "required" ≠ "form_class" ∧
    ((∃ f, TreeForeignKey.formfield captureBase [("required", Val.pyNone)] = Except.ok f ∧
        Kwargs.lookup f.config "required" = Kwargs.lookup [("required", Val.pyNone)] "required") ∧
    (∃ f, TreeOneToOneField.formfield captureBase [("required", Val.pyNone)] = Except.ok f ∧
        Kwargs.lookup f.config "required" = Kwargs.lookup [("required", Val.pyNone)] "required") ∧
    (∃ f, TreeManyToManyField.formfield captureBase [("required", Val.pyNone)] = Except.ok f ∧
        Kwargs.lookup f.config "required" = Kwargs.lookup [("required", Val.pyNone)] "required")) :=
  ⟨by decide, c6_other_entries_unchanged [("required", Val.pyNone)] "required" (by decide)⟩

/-- C7: an adapter's `formfield` raises exactly when the base implementation
raises on the (possibly augmented) configuration, with the same error, and
returns exactly what the base returns otherwise: the layer adds no error
handling of its own. -/
theorem c7_errors_propagate_unchanged (base : BaseFormfield) (kwargs : Kwargs) :
    (∀ e, TreeForeignKey.formfield base kwargs = Except.error e ↔
        base (Kwargs.setdefault kwargs "form_class" (Val.cls FormFieldClass.TreeNodeChoiceField)) =
          Except.error e) ∧
    (∀ e, TreeOneToOneField.formfield base kwargs = Except.error e ↔
        base (Kwargs.setdefault kwargs "form_class" (Val.cls FormFieldClass.TreeNodeChoiceField)) =
          Except.error e) ∧
    (∀ e, TreeManyToManyField.formfield base kwargs = Except.error e ↔
        base (Kwargs.setdefault kwargs "form_class"
            (Val.cls FormFieldClass.TreeNodeMultipleChoiceField)) =
          Except.error e) ∧
    (∀ f, TreeForeignKey.formfield base kwargs = Except.ok f ↔
        base (Kwargs.setdefault kwargs "form_class" (Val.cls FormFieldClass.TreeNodeChoiceField)) =
          Except.ok f) ∧
    (∀ f, TreeOneToOneField.formfield base kwargs = Except.ok f ↔
        base (Kwargs.setdefault kwargs "form_class" (Val.cls FormFieldClass.TreeNodeChoiceField)) =
          Except.ok f) ∧
    (∀ f, TreeManyToManyField.formfield base kwargs = Except.ok f ↔
        base (Kwargs.setdefault kwargs "form_class"
            (Val.cls FormFieldClass.TreeNodeMultipleChoiceField)) =
          Except.ok f) :=
  ⟨fun _ => Iff.rfl, fun _ => Iff.rfl, fun _ => Iff.rfl,
   fun _ => Iff.rfl, fun _ => Iff.rfl, fun _ => Iff.rfl⟩

/-- C8: the three variants perform the same configuration augmentation up to
the injected class: the two single-valued adapters agree on every input and
both realise the shared transformation with the single-choice class, and the
multi-valued adapter realises it with the multiple-choice class. -/
theorem c8_variants_same_up_to_class (base : BaseFormfield) (kwargs : Kwargs) :
    TreeForeignKey.formfield base kwargs = TreeOneToOneField.formfield base kwargs ∧
    TreeForeignKey.formfield base kwargs =
      base (augmentWith FormFieldClass.TreeNodeChoiceField kwargs) ∧
    TreeOneToOneField.formfield base kwargs =
      base (augmentWith FormFieldClass.TreeNodeChoiceField kwargs) ∧
    TreeManyToManyField.formfield base kwargs =
      base (augmentWith FormFieldClass.TreeNodeMultipleChoiceField kwargs) :=
  ⟨rfl, rfl, rfl, rfl⟩

/-- C9: the default-insertion step is idempotent - doing it twice is doing
it once - both on the configuration itself and as seen through each
adapter. -/
theorem c9_augmentation_idempotent (kwargs : Kwargs) :
    (∀ c, augmentWith c (augmentWith c kwargs) = augmentWith c kwargs) ∧
    (∀ base : BaseFormfield,
      TreeForeignKey.formfield base (augmentWith FormFieldClass.TreeNodeChoiceField kwargs) =
        TreeForeignKey.formfield base kwargs) ∧
    (∀ base : BaseFormfield,
      TreeOneToOneField.formfield base (augmentWith FormFieldClass.TreeNodeChoiceField kwargs) =
        TreeOneToOneField.formfield base kwargs) ∧
    (∀ base : BaseFormfield,
      TreeManyToManyField.formfield base
          (augmentWith FormFieldClass.TreeNodeMultipleChoiceField kwargs) =
        TreeManyToManyField.formfield base kwargs) := by
  refine ⟨?_, ?_, ?_, ?_⟩
  · exact fun c => Kwargs.setdefault_idem kwargs "form_class" (Val.cls c)
  · exact fun base => congrArg base (Kwargs.setdefault_idem kwargs "form_class" _)
  · exact fun base => congrArg base (Kwargs.setdefault_idem kwargs "form_class" _)
  · exact fun base => congrArg base (Kwargs.setdefault_idem kwargs "form_class" _)

/-- C10: the configuration each adapter forwards to its base always holds a
`form_class` entry, and its key set is the input key set united with the
singleton form_class key - no key is ever removed. -/
theorem c10_forwarded_key_set (kwargs : Kwargs) :
    (∃ f, TreeForeignKey.formfield captureBase kwargs = Except.ok f ∧
        (Kwargs.lookup f.config "form_class").isSome = true ∧
        ∀ key, key ∈ Kwargs.keys f.config ↔ key ∈ Kwargs.keys kwargs ∨ key = "form_class") ∧
    (∃ f, TreeOneToOneField.formfield captureBase kwargs = Except.ok f ∧
        (Kwargs.lookup f.config "form_class").isSome = true ∧
        ∀ key, key ∈ Kwargs.keys f.config ↔ key ∈ Kwargs.keys kwargs ∨ key = "form_class") ∧
    (∃ f, TreeManyToManyField.formfield captureBase kwargs = Except.ok f ∧
        (Kwargs.lookup f.config "form_class").isSome = true ∧
        ∀ key, key ∈ Kwargs.keys f.config ↔ key ∈ Kwargs.keys kwargs ∨ key = "form_class") := by
  refine ⟨⟨_, rfl, ?_, ?_⟩, ⟨_, rfl, ?_, ?_⟩, ⟨_, rfl, ?_, ?_⟩⟩
  · exact Kwargs.lookup_setdefault_self kwargs "form_class" _
  · exact fun key => Kwargs.mem_keys_setdefault kwargs "form_class" key _
  · exact Kwargs.lookup_setdefault_self kwargs "form_class" _
  · exact fun key => Kwargs.mem_keys_setdefault kwargs "form_class" key _
  · exact Kwargs.lookup_setdefault_self kwargs "form_class" _
  · exact fun key => Kwargs.mem_keys_setdefault kwargs "form_class" key _

end Mptt2
